import Mathlib

/-!
Verification of the ShadowPluginWarden publish workflow.

We embed the core of the repository shallowly in Lean:

* the registry merge function (any_plugin in github_utils.py);
* the asset classification loop at the top of create_pr;
* the publish workflow create_pr itself, with the external world
  (HTTP fetches, the GitHub repository service) abstracted into an
  explicit environment and the externally visible writes recorded as an
  effect trace.

Machine-level details irrelevant to the claims (authentication, the
exact on-the-wire JSON text, loguru logging) are not modelled; every
branch of the Python control flow that a claim touches is.
-/

/-! ## Data model -/

/-- A reduced release asset, the projection that create_pr builds for the
new_assets list: id, name, content_type, size, created_at, updated_at and
browser_download_url. -/
structure ReducedAsset where
  id : Nat
  name : String
  content_type : String
  size : Nat
  created_at : String
  updated_at : String
  browser_download_url : String
deriving DecidableEq, Repr

/-- A raw release asset as delivered in the webhook payload: the reduced
fields plus the payload fields create_pr drops (label, state,
download_count). -/
structure RawAsset where
  id : Nat
  name : String
  label : String
  content_type : String
  state : String
  size : Nat
  download_count : Nat
  created_at : String
  updated_at : String
  browser_download_url : String
deriving DecidableEq, Repr

/-- The field projection create_pr applies to a plain asset before adding
it to new_assets. -/
def reduceAsset (a : RawAsset) : ReducedAsset :=
  { id := a.id
    name := a.name
    content_type := a.content_type
    size := a.size
    created_at := a.created_at
    updated_at := a.updated_at
    browser_download_url := a.browser_download_url }

/-- A plugin manifest entry.  The code requires the Id and Version keys,
manages the Logo and Assets keys, and passes all other keys through
untouched; the untouched remainder is modelled by the opaque payload
field. -/
structure PluginEntry where
  Id : String
  Version : String
  Logo : Option String
  Assets : List ReducedAsset
  payload : String
deriving DecidableEq, Repr

/-! ## Manifest merger (any_plugin) -/

/-- The loop body of any_plugin: walk the registry in order; an entry
whose Id equals the new entry's Id is replaced by the new entry and sets
the flag, any other entry is kept unchanged. -/
def any_plugin_loop (plugin_json : PluginEntry) :
    List PluginEntry → Bool × List PluginEntry
  | [] => (false, [])
  | plugin :: rest =>
    let r := any_plugin_loop plugin_json rest
    if plugin.Id = plugin_json.Id then (true, plugin_json :: r.2)
    else (r.1, plugin :: r.2)

/-- any_plugin from github_utils.py: run the loop over the registry, and
if no entry matched append the new entry at the end; return the matched
flag together with the updated registry. -/
def any_plugin (raw_plugin_json : List PluginEntry) (plugin_json : PluginEntry) :
    Bool × List PluginEntry :=
  let r := any_plugin_loop plugin_json raw_plugin_json
  if r.1 then r else (r.1, r.2 ++ [plugin_json])

/-- The flag computed by the loop is true exactly when some entry's Id
matches the new entry's Id. -/
theorem any_plugin_loop_fst (p : PluginEntry) (l : List PluginEntry) :
    (any_plugin_loop p l).1 = true ↔ ∃ q ∈ l, q.Id = p.Id := by
  induction l with
  | nil => simp [any_plugin_loop]
  | cons a rest ih =>
    by_cases h : a.Id = p.Id <;> simp [any_plugin_loop, h, ih]

/-- The list computed by the loop is the input registry with every
matching entry replaced by the new entry. -/
theorem any_plugin_loop_snd (p : PluginEntry) (l : List PluginEntry) :
    (any_plugin_loop p l).2 = l.map (fun q => if q.Id = p.Id then p else q) := by
  induction l with
  | nil => rfl
  | cons a rest ih =>
    by_cases h : a.Id = p.Id <;> simp [any_plugin_loop, h, ih]

theorem any_plugin_fst (R : List PluginEntry) (E : PluginEntry) :
    (any_plugin R E).1 = true ↔ ∃ q ∈ R, q.Id = E.Id := by
  unfold any_plugin
  by_cases h : (any_plugin_loop E R).1 = true <;>
    simp [h, ← any_plugin_loop_fst E R]

/-- When no entry matches, the replacement map is the identity. -/
theorem map_replace_of_no_match (R : List PluginEntry) (E : PluginEntry)
    (h : ∀ q ∈ R, q.Id ≠ E.Id) :
    R.map (fun q => if q.Id = E.Id then E else q) = R := by
  rw [List.map_congr_left (g := id), List.map_id]
  intro q hq
  simp [h q hq]

/-- The registry returned by any_plugin: the replacement map when some
entry matched, otherwise the input with the new entry appended. -/
theorem any_plugin_snd (R : List PluginEntry) (E : PluginEntry) :
    (any_plugin R E).2 =
      (if ∃ q ∈ R, q.Id = E.Id
       then R.map (fun q => if q.Id = E.Id then E else q)
       else R ++ [E]) := by
  unfold any_plugin
  by_cases h : ∃ q ∈ R, q.Id = E.Id
  · have hf : (any_plugin_loop E R).1 = true := (any_plugin_loop_fst E R).mpr h
    simp [hf, h, any_plugin_loop_snd]
  · have hf : (any_plugin_loop E R).1 = false := by
      rcases Bool.eq_false_or_eq_true (any_plugin_loop E R).1 with ht | hf
      · exact absurd ((any_plugin_loop_fst E R).mp ht) h
      · exact hf
    have hid : R.map (fun q => if q.Id = E.Id then E else q) = R :=
      map_replace_of_no_match R E (by push_neg at h; exact h)
    simp [hf, h, any_plugin_loop_snd, hid]

/-- C1: any_plugin returns the registry with every entry whose Id equals
the new entry's Id replaced by the new entry and every other entry kept
unchanged in place; when no entry matched the new entry is appended at
the end; and the matched flag is true exactly when some input entry's Id
equals the new entry's Id. -/
theorem any_plugin_merge_spec (R : List PluginEntry) (E : PluginEntry) :
    ((any_plugin R E).1 = true ↔ ∃ q ∈ R, q.Id = E.Id) ∧
    (any_plugin R E).2 =
      (if ∃ q ∈ R, q.Id = E.Id
       then R.map (fun q => if q.Id = E.Id then E else q)
       else R ++ [E]) :=
  ⟨any_plugin_fst R E, any_plugin_snd R E⟩

/-- Replacing matching entries never changes the Id at any position of
the registry. -/
theorem map_replace_ids (R : List PluginEntry) (E : PluginEntry) :
    (R.map (fun q => if q.Id = E.Id then E else q)).map PluginEntry.Id =
      R.map PluginEntry.Id := by
  induction R with
  | nil => rfl
  | cons a rest ih =>
    by_cases h : a.Id = E.Id <;> simp [h, ih]

/-- The Ids of the merged registry: unchanged when the flag is set,
otherwise the input Ids with the new entry's Id appended. -/
theorem any_plugin_ids (R : List PluginEntry) (E : PluginEntry) :
    (any_plugin R E).2.map PluginEntry.Id =
      (if (any_plugin R E).1 = true then R.map PluginEntry.Id
       else R.map PluginEntry.Id ++ [E.Id]) := by
  unfold any_plugin
  by_cases h : (any_plugin_loop E R).1 = true <;>
    simp [h, any_plugin_loop_snd, map_replace_ids] <;>
    · intro a _
      by_cases ha : a.Id = E.Id <;> simp [ha]

/-- Counting entries by Id is counting the Id in the projected Id list. -/
theorem countP_id_eq_count_map (l : List PluginEntry) (x : String) :
    l.countP (fun q => q.Id == x) = (l.map PluginEntry.Id).count x := by
  simp [List.count, List.countP_map, Function.comp_def]

/-- C2: when the input registry's Ids are pairwise distinct, the merged
registry's length is the input length plus one exactly when the flag is
false; every input Id occurs exactly once in the output; and the new
entry's Id occurs exactly once in the output. -/
theorem any_plugin_unique_id_invariant (R : List PluginEntry) (E : PluginEntry)
    (hR : (R.map PluginEntry.Id).Nodup) :
    (any_plugin R E).2.length =
      R.length + (if (any_plugin R E).1 = true then 0 else 1) ∧
    (∀ p ∈ R, (any_plugin R E).2.countP (fun q => q.Id == p.Id) = 1) ∧
    (any_plugin R E).2.countP (fun q => q.Id == E.Id) = 1 := by
  have hids := any_plugin_ids R E
  have hlen : (any_plugin R E).2.length = ((any_plugin R E).2.map PluginEntry.Id).length := by
    simp
  by_cases hflag : (any_plugin R E).1 = true
  · rw [if_pos hflag] at hids
    obtain ⟨q, hq, hqid⟩ := (any_plugin_fst R E).mp hflag
    refine ⟨?_, ?_, ?_⟩
    · rw [if_pos hflag, hlen, hids]
      simp
    · intro p hp
      rw [countP_id_eq_count_map, hids]
      exact List.count_eq_one_of_mem hR (List.mem_map_of_mem _ hp)
    · rw [countP_id_eq_count_map, hids, ← hqid]
      exact List.count_eq_one_of_mem hR (List.mem_map_of_mem _ hq)
  · rw [if_neg hflag] at hids
    have hnomatch : ∀ q ∈ R, q.Id ≠ E.Id := by
      intro q hq hqe
      exact hflag ((any_plugin_fst R E).mpr ⟨q, hq, hqe⟩)
    have hnotin : E.Id ∉ R.map PluginEntry.Id := by
      intro hmem
      obtain ⟨q, hq, hqe⟩ := List.mem_map.mp hmem
      exact hnomatch q hq hqe
    refine ⟨?_, ?_, ?_⟩
    · rw [if_neg hflag, hlen, hids]
      simp
    · intro p hp
      rw [countP_id_eq_count_map, hids, List.count_append,
        List.count_eq_one_of_mem hR (List.mem_map_of_mem _ hp)]
      have hne : p.Id ≠ E.Id := hnomatch p hp
      simp [List.count_singleton', hne]
    · rw [countP_id_eq_count_map, hids, List.count_append,
        List.count_eq_zero.mpr hnotin]
      simp [List.count_singleton']

/-- The merged registry always contains the new entry. -/
theorem any_plugin_mem (R : List PluginEntry) (E : PluginEntry) :
    E ∈ (any_plugin R E).2 := by
  have hsnd := any_plugin_snd R E
  by_cases hex : ∃ q ∈ R, q.Id = E.Id
  · rw [hsnd, if_pos hex]
    obtain ⟨p, hp, hpid⟩ := hex
    exact List.mem_map.mpr ⟨p, hp, by simp [hpid]⟩
  · rw [hsnd, if_neg hex]
    simp

/-- In the merged registry, any entry carrying the new entry's Id is the
new entry itself. -/
theorem any_plugin_matched_eq (R : List PluginEntry) (E : PluginEntry) :
    ∀ q ∈ (any_plugin R E).2, q.Id = E.Id → q = E := by
  have hsnd := any_plugin_snd R E
  by_cases hex : ∃ q ∈ R, q.Id = E.Id
  · rw [hsnd, if_pos hex]
    intro q hq hqid
    obtain ⟨p, hp, hpe⟩ := List.mem_map.mp hq
    by_cases hpid : p.Id = E.Id
    · rw [if_pos hpid] at hpe
      exact hpe.symm
    · rw [if_neg hpid] at hpe
      rw [← hpe] at hqid
      exact absurd hqid hpid
  · rw [hsnd, if_neg hex]
    push_neg at hex
    intro q hq hqid
    rcases List.mem_append.mp hq with hqR | hqE
    · exact absurd hqid (hex q hqR)
    · simpa using hqE

/-- Merging into a registry that already contains the new entry, and in
which every entry with its Id is the entry itself, is a no-op with the
flag set. -/
theorem any_plugin_of_matched_eq (S : List PluginEntry) (E : PluginEntry)
    (hmem : E ∈ S) (hmatched : ∀ q ∈ S, q.Id = E.Id → q = E) :
    any_plugin S E = (true, S) := by
  have hf : (any_plugin_loop E S).1 = true :=
    (any_plugin_loop_fst E S).mpr ⟨E, hmem, rfl⟩
  have hmap : S.map (fun q => if q.Id = E.Id then E else q) = S := by
    rw [List.map_congr_left (g := id), List.map_id]
    intro q hq
    by_cases h : q.Id = E.Id
    · simp [h, hmatched q hq h]
    · simp [h]
  have h2 : (any_plugin_loop E S).2 = S := by
    rw [any_plugin_loop_snd, hmap]
  unfold any_plugin
  simp only [hf, if_true]
  exact Prod.ext hf h2

/-- C8: merging the same entry a second time is a no-op: the second merge
returns the first merge's registry unchanged, with the matched flag
true. -/
theorem any_plugin_idempotent (R : List PluginEntry) (E : PluginEntry) :
    any_plugin (any_plugin R E).2 E = (true, (any_plugin R E).2) :=
  any_plugin_of_matched_eq (any_plugin R E).2 E (any_plugin_mem R E)
    (any_plugin_matched_eq R E)

/-- C10: when the registry holds two or more entries with the new entry's
Id, every one of them is replaced by the new entry: the flag is set, the
output is the pure replacement map (same length as the input), and the
new entry's Id occurs at least twice in the output. -/
theorem any_plugin_duplicate_ids (R : List PluginEntry) (E : PluginEntry)
    (h : 2 ≤ R.countP (fun q => q.Id == E.Id)) :
    (any_plugin R E).1 = true ∧
    (any_plugin R E).2 = R.map (fun q => if q.Id = E.Id then E else q) ∧
    (any_plugin R E).2.length = R.length ∧
    2 ≤ (any_plugin R E).2.countP (fun q => q.Id == E.Id) := by
  have hpos : 0 < R.countP (fun q => q.Id == E.Id) := lt_of_lt_of_le (by norm_num) h
  obtain ⟨q, hq, hqb⟩ := List.countP_pos_iff.mp hpos
  have hex : ∃ p ∈ R, p.Id = E.Id := ⟨q, hq, by simpa using hqb⟩
  have hflag : (any_plugin R E).1 = true := (any_plugin_fst R E).mpr hex
  have hsnd : (any_plugin R E).2 = R.map (fun p => if p.Id = E.Id then E else p) := by
    rw [any_plugin_snd R E, if_pos hex]
  refine ⟨hflag, hsnd, by simp [hsnd], ?_⟩
  rw [hsnd, List.countP_map]
  have hcong : R.countP (fun p => (if p.Id = E.Id then E else p).Id == E.Id) =
      R.countP (fun p => p.Id == E.Id) := by
    refine List.countP_congr ?_
    intro p _
    by_cases hp : p.Id = E.Id <;> simp [hp]
  rw [show ((fun q : PluginEntry => q.Id == E.Id) ∘ fun p => if p.Id = E.Id then E else p) =
      (fun p : PluginEntry => (if p.Id = E.Id then E else p).Id == E.Id) from rfl, hcong]
  exact h

/-! ## Asset classifier (the loop at the top of create_pr) -/

/-- Python str.startswith, modelled on the character list so that it
evaluates on concrete strings. -/
def strStartsWith (s p : String) : Bool := p.data.isPrefixOf s.data

/-- The test of the first branch of the classification loop: the asset's
content_type begins with image/. -/
def isImageAsset (a : RawAsset) : Bool := strStartsWith a.content_type "image/"

/-- An asset that takes the second branch: not image-typed and named
plugin.json. -/
def isManifestAsset (a : RawAsset) : Bool :=
  !(isImageAsset a) && (a.name == "plugin.json")

/-- An asset that takes the third branch: neither image-typed nor named
plugin.json. -/
def isPlainAsset (a : RawAsset) : Bool :=
  !(isImageAsset a) && !(a.name == "plugin.json")

/-- The four local variables the classification loop accumulates. -/
structure ClassifyState where
  plugin_json_url : Option String
  logo_url : Option String
  logo_name : Option String
  new_assets : List ReducedAsset
deriving DecidableEq, Repr

/-- The classification loop of create_pr: image-typed assets overwrite
the logo fields, an asset named plugin.json overwrites the manifest
pointer, and every other asset is appended in reduced form to
new_assets. -/
def classify_assets : List RawAsset → ClassifyState → ClassifyState
  | [], s => s
  | a :: rest, s =>
    if isImageAsset a then
      classify_assets rest
        { s with logo_url := some a.browser_download_url, logo_name := some a.name }
    else if a.name == "plugin.json" then
      classify_assets rest { s with plugin_json_url := some a.browser_download_url }
    else
      classify_assets rest { s with new_assets := s.new_assets ++ [reduceAsset a] }

/-- The classification of a release's assets starting from the initial
None/None/None/[] state of create_pr. -/
def classify_release_assets (assets : List RawAsset) : ClassifyState :=
  classify_assets assets
    { plugin_json_url := none, logo_url := none, logo_name := none, new_assets := [] }

/-- Pushing a head element into the default of an or-chain over the last
element of a list. -/
theorem getLast?_cons_or {α β : Type} (a : α) (l : List α) (f : α → β) (o : Option β) :
    Option.or (((a :: l).getLast?).map f) o =
      Option.or ((l.getLast?).map f) (some (f a)) := by
  cases l with
  | nil => simp
  | cons b t =>
    rw [List.getLast?_cons_cons]
    cases h : (b :: t).getLast? with
    | none => simp at h
    | some x => simp [h]

/-- The logo name after the loop: the name of the last image-typed asset,
the incoming state's logo name when there is none. -/
theorem classify_logo_name (l : List RawAsset) (s : ClassifyState) :
    (classify_assets l s).logo_name =
      Option.or (((l.filter isImageAsset).getLast?).map RawAsset.name) s.logo_name := by
  induction l generalizing s with
  | nil => simp [classify_assets]
  | cons a rest ih =>
    by_cases himg : isImageAsset a
    · rw [classify_assets, if_pos himg, ih, List.filter_cons_of_pos himg,
        getLast?_cons_or]
    · by_cases hpj : a.name == "plugin.json" <;>
        rw [classify_assets, if_neg himg] <;>
        simp only [hpj, if_true, if_false, Bool.false_eq_true] <;>
        rw [ih, List.filter_cons_of_neg himg]

/-- The logo URL after the loop: the download URL of the last image-typed
asset, the incoming state's logo URL when there is none. -/
theorem classify_logo_url (l : List RawAsset) (s : ClassifyState) :
    (classify_assets l s).logo_url =
      Option.or (((l.filter isImageAsset).getLast?).map RawAsset.browser_download_url)
        s.logo_url := by
  induction l generalizing s with
  | nil => simp [classify_assets]
  | cons a rest ih =>
    by_cases himg : isImageAsset a
    · rw [classify_assets, if_pos himg, ih, List.filter_cons_of_pos himg,
        getLast?_cons_or]
    · by_cases hpj : a.name == "plugin.json" <;>
        rw [classify_assets, if_neg himg] <;>
        simp only [hpj, if_true, if_false, Bool.false_eq_true] <;>
        rw [ih, List.filter_cons_of_neg himg]

/-- The manifest pointer after the loop: the download URL of the last
non-image asset named plugin.json, the incoming pointer when there is
none. -/
theorem classify_plugin_json_url (l : List RawAsset) (s : ClassifyState) :
    (classify_assets l s).plugin_json_url =
      Option.or (((l.filter isManifestAsset).getLast?).map RawAsset.browser_download_url)
        s.plugin_json_url := by
  induction l generalizing s with
  | nil => simp [classify_assets]
  | cons a rest ih =>
    by_cases himg : isImageAsset a
    · have hman : isManifestAsset a = false := by
        simp [isManifestAsset, himg]
      rw [classify_assets, if_pos himg, ih, List.filter_cons_of_neg (by simp [hman])]
    · by_cases hpj : a.name == "plugin.json"
      · have hman : isManifestAsset a = true := by
          simp [isManifestAsset, himg, hpj]
      
        rw [classify_assets, if_neg himg, if_pos hpj, ih,
          List.filter_cons_of_pos hman, getLast?_cons_or]
      · have hman : isManifestAsset a = false := by
          simp [isManifestAsset, himg, hpj]
        rw [classify_assets, if_neg himg, if_neg hpj, ih,
          List.filter_cons_of_neg (by simp [hman])]

/-- The reduced plain-asset list after the loop: the incoming list with
the reduction of every plain asset appended in input order. -/
theorem classify_new_assets (l : List RawAsset) (s : ClassifyState) :
    (classify_assets l s).new_assets =
      s.new_assets ++ (l.filter isPlainAsset).map reduceAsset := by
  induction l generalizing s with
  | nil => simp [classify_assets]
  | cons a rest ih =>
    by_cases himg : isImageAsset a
    · have hp : isPlainAsset a = false := by simp [isPlainAsset, himg]
      rw [classify_assets, if_pos himg, ih, List.filter_cons_of_neg (by simp [hp])]
    · by_cases hpj : a.name == "plugin.json"
      · have hp : isPlainAsset a = false := by simp [isPlainAsset, hpj]
        rw [classify_assets, if_neg himg, if_pos hpj, ih,
          List.filter_cons_of_neg (by simp [hp])]
      · have hp : isPlainAsset a = true := by simp [isPlainAsset, himg, hpj]
        rw [classify_assets, if_neg himg, if_neg hpj, ih,
          List.filter_cons_of_pos hp]
        simp

/-- A release asset named plugin.json with a JSON content type. -/
def manifestAssetW : RawAsset :=
  { id := 10, name := "plugin.json", label := "", content_type := "application/json",
    state := "uploaded", size := 100, download_count := 0,
    created_at := "2024-01-01T00:00:00Z", updated_at := "2024-01-01T00:00:00Z",
    browser_download_url := "https://example.com/plugin.json" }

/-- An image-typed release asset named a.png. -/
def imageAssetA : RawAsset :=
  { id := 11, name := "a.png", label := "", content_type := "image/png",
    state := "uploaded", size := 10, download_count := 0,
    created_at := "2024-01-01T00:00:00Z", updated_at := "2024-01-01T00:00:00Z",
    browser_download_url := "https://example.com/a.png" }

/-- A second image-typed release asset named b.png. -/
def imageAssetB : RawAsset :=
  { id := 12, name := "b.png", label := "", content_type := "image/jpeg",
    state := "uploaded", size := 20, download_count := 0,
    created_at := "2024-01-01T00:00:00Z", updated_at := "2024-01-01T00:00:00Z",
    browser_download_url := "https://example.com/b.png" }

/-- A plain downloadable release asset. -/
def plainAssetW : RawAsset :=
  { id := 13, name := "shadow.zip", label := "", content_type := "application/zip",
    state := "uploaded", size := 4096, download_count := 3,
    created_at := "2024-01-01T00:00:00Z", updated_at := "2024-01-01T00:00:00Z",
    browser_download_url := "https://example.com/shadow.zip" }

/-- C4 counterexample: with two image-typed assets a.png then b.png, the
classifier's logo is b.png, the LAST image asset, not the first as the
claim states. -/
theorem classify_first_image_claim_false :
    (classify_release_assets [imageAssetA, imageAssetB]).logo_name = some "b.png" ∧
    (classify_release_assets [imageAssetA, imageAssetB]).logo_url =
      some "https://example.com/b.png" ∧
    (classify_release_assets [imageAssetA, imageAssetB]).logo_name ≠ some "a.png" ∧
    (classify_release_assets [imageAssetA, imageAssetB]).logo_url ≠
      some "https://example.com/a.png" := by
  refine ⟨rfl, rfl, by decide, by decide⟩

/-- C4 amended: the asset selected as the logo is the last asset in input
order whose content_type begins with image/ (name and download URL alike);
when no image-typed asset exists there is no logo. -/
theorem classify_logo_is_last_image (assets : List RawAsset) :
    (classify_release_assets assets).logo_name =
      ((assets.filter isImageAsset).getLast?).map RawAsset.name ∧
    (classify_release_assets assets).logo_url =
      ((assets.filter isImageAsset).getLast?).map RawAsset.browser_download_url := by
  constructor
  · rw [classify_release_assets, classify_logo_name]
    exact Option.or_none
  · rw [classify_release_assets, classify_logo_url]
    exact Option.or_none

/-- find? is the head of the filtered list. -/
theorem find?_eq_head_filter {α : Type} (p : α → Bool) (l : List α) :
    l.find? p = (l.filter p).head? := by
  induction l with
  | nil => rfl
  | cons a t ih =>
    by_cases h : p a
    · rw [List.find?_cons_of_pos t h, List.filter_cons_of_pos h]
      rfl
    · rw [List.find?_cons_of_neg t (by simpa using h), List.filter_cons_of_neg (by simpa using h), ih]

/-- On a list with at most one element, the last element is the head. -/
theorem getLast?_eq_head?_of_le_one {α : Type} (l : List α) (h : l.length ≤ 1) :
    l.getLast? = l.head? := by
  match l with
  | [] => rfl
  | [a] => rfl
  | a :: b :: t => simp at h

/-- Each asset satisfies exactly one of the three classification tests,
so the three filtered sublists count the whole input. -/
theorem classify_count_partition (assets : List RawAsset) :
    (assets.filter isPlainAsset).length + (assets.filter isImageAsset).length +
      (assets.filter isManifestAsset).length = assets.length := by
  induction assets with
  | nil => rfl
  | cons a t ih =>
    by_cases himg : isImageAsset a
    · have h1 : isPlainAsset a = false := by simp [isPlainAsset, himg]
      have h2 : isManifestAsset a = false := by simp [isManifestAsset, himg]
      simp only [List.filter_cons, himg, h1, h2, Bool.false_eq_true, if_true, if_false,
        List.length_cons]
      omega
    · by_cases hpj : a.name == "plugin.json"
      · have h1 : isPlainAsset a = false := by simp [isPlainAsset, hpj]
        have h2 : isManifestAsset a = true := by simp [isManifestAsset, himg, hpj]
        simp only [List.filter_cons, himg, h1, h2, Bool.false_eq_true, if_true, if_false,
          List.length_cons]
        omega
      · have h1 : isPlainAsset a = true := by simp [isPlainAsset, himg, hpj]
        have h2 : isManifestAsset a = false := by simp [isManifestAsset, himg, hpj]
        simp only [List.filter_cons, himg, h1, h2, Bool.false_eq_true, if_true, if_false,
          List.length_cons]
        omega

/-- C7: with exactly one plugin.json-named asset and at most one
image-typed asset, the classifier's outputs partition the input exactly:
new_assets is the in-order reduction of exactly the plain assets, the
logo is the unique image asset when present, the manifest pointer is the
unique non-image plugin.json asset when present, and the three classes
count every input asset exactly once. -/
theorem classify_partition (assets : List RawAsset)
    (h1 : assets.countP (fun a => a.name == "plugin.json") = 1)
    (h2 : assets.countP isImageAsset ≤ 1) :
    (classify_release_assets assets).new_assets =
      (assets.filter isPlainAsset).map reduceAsset ∧
    (classify_release_assets assets).logo_name =
      (assets.find? isImageAsset).map RawAsset.name ∧
    (classify_release_assets assets).logo_url =
      (assets.find? isImageAsset).map RawAsset.browser_download_url ∧
    (classify_release_assets assets).plugin_json_url =
      (assets.find? isManifestAsset).map RawAsset.browser_download_url ∧
    (assets.filter isPlainAsset).length + (assets.filter isImageAsset).length +
      (assets.filter isManifestAsset).length = assets.length := by
  have himg_len : (assets.filter isImageAsset).length ≤ 1 := by
    rw [← List.countP_eq_length_filter]
    exact h2
  have hman_le : assets.countP isManifestAsset ≤ 1 := by
    refine le_trans (List.countP_mono_left ?_) (le_of_eq h1)
    intro a _ ha
    simp only [isManifestAsset, Bool.and_eq_true] at ha
    exact ha.2
  have hman_len : (assets.filter isManifestAsset).length ≤ 1 := by
    rw [← List.countP_eq_length_filter]
    exact hman_le
  refine ⟨?_, ?_, ?_, ?_, classify_count_partition assets⟩
  · rw [classify_release_assets, classify_new_assets]
    rfl
  · rw [classify_release_assets, classify_logo_name,
      getLast?_eq_head?_of_le_one _ himg_len, ← find?_eq_head_filter]
    exact Option.or_none
  · rw [classify_release_assets, classify_logo_url,
      getLast?_eq_head?_of_le_one _ himg_len, ← find?_eq_head_filter]
    exact Option.or_none
  · rw [classify_release_assets, classify_plugin_json_url,
      getLast?_eq_head?_of_le_one _ hman_len, ← find?_eq_head_filter]
    exact Option.or_none

/-- C7 witness: the partition evaluated on a release with one manifest
asset, one image asset and one plain asset. -/
theorem classify_partition_witness :
    ([manifestAssetW, imageAssetA, plainAssetW].countP
        (fun a => a.name == "plugin.json") = 1) ∧
    ([manifestAssetW, imageAssetA, plainAssetW].countP isImageAsset ≤ 1) ∧
    ((classify_release_assets [manifestAssetW, imageAssetA, plainAssetW]).new_assets =
      ([manifestAssetW, imageAssetA, plainAssetW].filter isPlainAsset).map reduceAsset ∧
    (classify_release_assets [manifestAssetW, imageAssetA, plainAssetW]).logo_name =
      ([manifestAssetW, imageAssetA, plainAssetW].find? isImageAsset).map RawAsset.name ∧
    (classify_release_assets [manifestAssetW, imageAssetA, plainAssetW]).logo_url =
      ([manifestAssetW, imageAssetA, plainAssetW].find? isImageAsset).map
        RawAsset.browser_download_url ∧
    (classify_release_assets [manifestAssetW, imageAssetA, plainAssetW]).plugin_json_url =
      ([manifestAssetW, imageAssetA, plainAssetW].find? isManifestAsset).map
        RawAsset.browser_download_url ∧
    ([manifestAssetW, imageAssetA, plainAssetW].filter isPlainAsset).length +
      ([manifestAssetW, imageAssetA, plainAssetW].filter isImageAsset).length +
      ([manifestAssetW, imageAssetA, plainAssetW].filter isManifestAsset).length =
      ([manifestAssetW, imageAssetA, plainAssetW] : List RawAsset).length) :=
  ⟨by decide, by decide, classify_partition _ (by decide) (by decide)⟩

/-- A registry entry with Id x, version 1. -/
def entryX : PluginEntry :=
  { Id := "x", Version := "1", Logo := none, Assets := [], payload := "" }

/-- A registry entry with Id y, version 1. -/
def entryY : PluginEntry :=
  { Id := "y", Version := "1", Logo := none, Assets := [], payload := "" }

/-- A new entry carrying the same Id x, version 2. -/
def entryX2 : PluginEntry :=
  { Id := "x", Version := "2", Logo := none, Assets := [], payload := "p" }

/-- A third entry with Id x, version 3. -/
def entryX3 : PluginEntry :=
  { Id := "x", Version := "3", Logo := none, Assets := [], payload := "q" }

/-- C2 witness: the unique-Id invariant evaluated on the registry
[x v1, y v1] merged with x v2. -/
theorem any_plugin_unique_id_invariant_witness :
    (([entryX, entryY].map PluginEntry.Id).Nodup) ∧
    ((any_plugin [entryX, entryY] entryX2).2.length =
      [entryX, entryY].length +
        (if (any_plugin [entryX, entryY] entryX2).1 = true then 0 else 1) ∧
    (∀ p ∈ [entryX, entryY],
      (any_plugin [entryX, entryY] entryX2).2.countP (fun q => q.Id == p.Id) = 1) ∧
    (any_plugin [entryX, entryY] entryX2).2.countP (fun q => q.Id == entryX2.Id) = 1) :=
  ⟨by decide, any_plugin_unique_id_invariant [entryX, entryY] entryX2 (by decide)⟩

/-- C10 witness: merging x v3 into a registry holding two entries with
Id x replaces both and keeps the duplicate. -/
theorem any_plugin_duplicate_ids_witness :
    (2 ≤ [entryX, entryX2].countP (fun q => q.Id == entryX3.Id)) ∧
    ((any_plugin [entryX, entryX2] entryX3).1 = true ∧
    (any_plugin [entryX, entryX2] entryX3).2 =
      [entryX, entryX2].map (fun q => if q.Id = entryX3.Id then entryX3 else q) ∧
    (any_plugin [entryX, entryX2] entryX3).2.length = [entryX, entryX2].length ∧
    2 ≤ (any_plugin [entryX, entryX2] entryX3).2.countP (fun q => q.Id == entryX3.Id)) :=
  ⟨by decide, any_plugin_duplicate_ids [entryX, entryX2] entryX3 (by decide)⟩

/-! ## Publish workflow (create_pr) -/

/-- The module-level source branch constant of github_utils.py. -/
def source_branch : String := "main"

/-- An HTTP response as the workflow observes it: status code, raw body
bytes, and the body parsed as a JSON plugin entry when it is one
(resp.json() raises otherwise, modelled by None). -/
structure HttpResp where
  status : Nat
  content : String
  jsonBody : Option PluginEntry
deriving DecidableEq, Repr

/-- The content carried by a repository file write: raw bytes for the
logo, the serialized registry array for plugin.json. -/
inductive FileContent where
  | bytes (data : String)
  | registryJson (entries : List PluginEntry)
deriving DecidableEq, Repr

/-- An externally visible write performed against the repository host. -/
inductive Effect where
  | createRef (branch : String)
  | createFile (path message : String) (content : FileContent) (branch : String)
  | updateFile (path message : String) (content : FileContent) (sha branch : String)
  | createPull (title body head base : String)
  | mergePull
  | deleteRef (branch : String)
deriving DecidableEq, Repr

/-- The outcome of one run: the logged skip with no writes, an abort by
an uncaught exception after the listed writes, or success with the
listed writes. -/
inductive Outcome where
  | skip
  | error (effects : List Effect)
  | success (effects : List Effect)
deriving DecidableEq, Repr

/-- The writes a run performed, whatever its outcome. -/
def effectsOf : Outcome → List Effect
  | Outcome.skip => []
  | Outcome.error es => es
  | Outcome.success es => es

/-- Whether a run reached the terminal success state. -/
def outcomeIsSuccess : Outcome → Bool
  | Outcome.success _ => true
  | _ => false

/-- Discriminator for the pull-request-open write. -/
def effectIsCreatePull : Effect → Bool
  | Effect.createPull _ _ _ _ => true
  | _ => false

/-- Discriminator for the pull-request-merge write. -/
def effectIsMergePull : Effect → Bool
  | Effect.mergePull => true
  | _ => false

/-- Discriminator for the branch-delete write. -/
def effectIsDeleteRef : Effect → Bool
  | Effect.deleteRef _ => true
  | _ => false

/-- The external collaborators of one run: the configured repository
name, the branch name derived from the current timestamp, plain HTTP GET
(None models a raised network exception), the current registry content
and revision token read from the default branch, the probe for an
existing file at a path on the default branch (None models the
GithubException branch of the try), and whether the conditional
plugin.json update is accepted (False models a stale revision token
rejected by the host). -/
structure Env where
  repo_name : String
  timestamp : String
  http : String → Option HttpResp
  registry : List PluginEntry
  registry_sha : String
  logoProbe : String → Option String
  registryUpdateOk : Bool

/-- get_pr_file from github_utils.py: GET the manifest URL,
raise_for_status (4xx and 5xx raise), take the parsed JSON body, and set
its Assets key to the reduced plain assets.  None models a raised
exception. -/
def get_pr_file (env : Env) (plugin_json_url : String) (assets : List ReducedAsset) :
    Option PluginEntry :=
  match env.http plugin_json_url with
  | none => none
  | some resp =>
    if 400 ≤ resp.status ∧ resp.status < 600 then none
    else
      match resp.jsonBody with
      | none => none
      | some plugin_json => some { plugin_json with Assets := assets }

/-- The tail of create_pr from the registry merge on: merge the entry,
build the commit message from the matched flag, update plugin.json on
the work branch under the registry revision token (rejected and fatal
when the token is stale), then open the pull request, merge it and
delete the work branch. -/
def commit_and_pr (env : Env) (effects : List Effect)
    (raw_plugin_json : List PluginEntry) (plugin_json : PluginEntry)
    (new_branch : String) : Outcome :=
  let r := any_plugin raw_plugin_json plugin_json
  let commit_message :=
    (if r.1 then "Update" else "Create") ++ " Plugin: " ++ plugin_json.Id ++
      " v" ++ plugin_json.Version
  if env.registryUpdateOk then
    Outcome.success
      (effects ++
        [Effect.updateFile "plugin.json" commit_message
            (FileContent.registryJson r.2) env.registry_sha new_branch,
          Effect.createPull commit_message "..." new_branch source_branch,
          Effect.mergePull,
          Effect.deleteRef new_branch])
  else
    Outcome.error effects

/-- create_pr from github_utils.py: classify the assets; skip when no
plugin.json asset was classified; read the registry from the default
branch; fetch the new entry manifest (fatal on failure, before any
write); create the work branch from the current timestamp; when a logo
asset was classified, first download its bytes (a network exception here
is fatal; the response status is never checked), build the logo commit
message while logo_flag is still False, probe the logo path on the
default branch and update (with the existing revision token) or create
the file on the work branch, then point the entry's Logo at the raw
main-branch URL; finally merge the entry into the registry and run the
commit, pull-request, merge and delete steps. -/
def create_pr (env : Env) (assets : List RawAsset) : Outcome :=
  let s := classify_release_assets assets
  match s.plugin_json_url with
  | none => Outcome.skip
  | some plugin_json_url =>
    let new_branch := env.timestamp
    let raw_plugin_json := env.registry
    match get_pr_file env plugin_json_url s.new_assets with
    | none => Outcome.error []
    | some plugin_json =>
      let plugin_id := plugin_json.Id
      let plugin_version := plugin_json.Version
      let branched := [Effect.createRef new_branch]
      match s.logo_url, s.logo_name with
      | some logo_url, some logo_name =>
        let logo_flag := false
        let logo_path := plugin_id ++ "/" ++ logo_name
        let logo_message :=
          (if logo_flag then "Update" else "Create") ++ " Plugin Logo: " ++
            plugin_id ++ " v" ++ plugin_version
        match env.http logo_url with
        | none => Outcome.error branched
        | some logoResp =>
          let withLogo :=
            { plugin_json with
              Logo := some ("https://raw.githubusercontent.com/" ++ env.repo_name ++
                "/refs/heads/main/" ++ logo_path) }
          match env.logoProbe logo_path with
          | some logo_sha =>
            commit_and_pr env
              (branched ++
                [Effect.updateFile logo_path logo_message
                    (FileContent.bytes logoResp.content) logo_sha new_branch])
              raw_plugin_json withLogo new_branch
          | none =>
            commit_and_pr env
              (branched ++
                [Effect.createFile logo_path logo_message
                    (FileContent.bytes logoResp.content) new_branch])
              raw_plugin_json withLogo new_branch
      | _, _ =>
        commit_and_pr env branched raw_plugin_json plugin_json new_branch

/-- C3: a run with no plugin.json-named asset classifies no manifest
pointer and ends as the skip outcome (which carries no writes), and a
run in which fetching the new entry manifest fails aborts with an empty
write trace, so in particular before the work branch is created. -/
theorem create_pr_skip_and_fetch_abort (env : Env) (assets : List RawAsset)
    (url : String) :
    ((∀ a ∈ assets, ¬ a.name = "plugin.json") → create_pr env assets = Outcome.skip) ∧
    ((classify_release_assets assets).plugin_json_url = some url →
      get_pr_file env url (classify_release_assets assets).new_assets = none →
      create_pr env assets = Outcome.error []) := by
  constructor
  · intro h
    have hfil : assets.filter isManifestAsset = [] := by
      rw [List.filter_eq_nil_iff]
      intro a ha
      simp [isManifestAsset, h a ha]
    have hnone : (classify_release_assets assets).plugin_json_url = none := by
      rw [classify_release_assets, classify_plugin_json_url, hfil]
      rfl
    simp [create_pr, hnone]
  · intro hsome hfetch
    simp [create_pr, hsome, hfetch]

/-- A successful manifest response carrying the entry x v2. -/
def respManifest : HttpResp :=
  { status := 200, content := "json", jsonBody := some entryX2 }

/-- A successful logo download response. -/
def respLogo : HttpResp :=
  { status := 200, content := "LOGOBYTES", jsonBody := none }

/-- A failed manifest response: HTTP 500, no parseable body. -/
def respServerError : HttpResp :=
  { status := 500, content := "oops", jsonBody := none }

/-- A failed logo download response: HTTP 404 with an error body. -/
def respNotFound : HttpResp :=
  { status := 404, content := "Not Found", jsonBody := none }

/-- An environment for a release with no manifest asset: every fetch
would fail, nothing is ever reached. -/
def envSkip : Env :=
  { repo_name := "kitUIN/ShadowPluginWarden", timestamp := "1700000000",
    http := fun _ => none, registry := [entryX], registry_sha := "regsha",
    logoProbe := fun _ => none, registryUpdateOk := true }

/-- An environment in which the manifest fetch returns HTTP 500. -/
def envFetchFail : Env :=
  { repo_name := "kitUIN/ShadowPluginWarden", timestamp := "1700000001",
    http := fun u =>
      if u = "https://example.com/plugin.json" then some respServerError else none,
    registry := [entryX], registry_sha := "regsha",
    logoProbe := fun _ => none, registryUpdateOk := true }

/-- C3 witness: the skip run on a release without plugin.json, and the
abort-before-branch run on a release whose manifest fetch returns 500. -/
theorem create_pr_skip_and_fetch_abort_witness :
    create_pr envSkip [imageAssetA, plainAssetW] = Outcome.skip ∧
    create_pr envFetchFail [manifestAssetW, plainAssetW] = Outcome.error [] :=
  ⟨(create_pr_skip_and_fetch_abort envSkip [imageAssetA, plainAssetW] "u").1
      (by decide),
    (create_pr_skip_and_fetch_abort envFetchFail [manifestAssetW, plainAssetW]
        "https://example.com/plugin.json").2 (by decide) (by decide)⟩

/-- With a stale registry revision token the conditional plugin.json
update is rejected and the tail of the workflow returns the error
outcome at once, with only the writes already applied. -/
theorem commit_and_pr_stale (env : Env) (effects : List Effect)
    (raw_plugin_json : List PluginEntry) (plugin_json : PluginEntry)
    (new_branch : String) (h : env.registryUpdateOk = false) :
    commit_and_pr env effects raw_plugin_json plugin_json new_branch =
      Outcome.error effects := by
  simp [commit_and_pr, h]

/-- C6: in every run whose plugin.json write is rejected for a stale
revision token, the run does not reach success and its write trace holds
no pull-request-open, no pull-request-merge and no branch-delete. -/
theorem stale_registry_write_aborts (env : Env) (assets : List RawAsset)
    (h : env.registryUpdateOk = false) :
    outcomeIsSuccess (create_pr env assets) = false ∧
    (effectsOf (create_pr env assets)).all
      (fun e => !(effectIsCreatePull e || effectIsMergePull e || effectIsDeleteRef e)) =
      true := by
  cases hc : (classify_release_assets assets).plugin_json_url with
  | none => simp [create_pr, hc, outcomeIsSuccess, effectsOf]
  | some url =>
    cases hf : get_pr_file env url (classify_release_assets assets).new_assets with
    | none => simp [create_pr, hc, hf, outcomeIsSuccess, effectsOf]
    | some pj =>
      cases hlu : (classify_release_assets assets).logo_url with
      | none =>
        simp [create_pr, hc, hf, hlu, commit_and_pr, h, outcomeIsSuccess, effectsOf,
          effectIsCreatePull, effectIsMergePull, effectIsDeleteRef]
      | some lu =>
        cases hln : (classify_release_assets assets).logo_name with
        | none =>
          simp [create_pr, hc, hf, hlu, hln, commit_and_pr, h, outcomeIsSuccess,
            effectsOf, effectIsCreatePull, effectIsMergePull, effectIsDeleteRef]
        | some ln =>
          cases hdl : env.http lu with
          | none =>
            simp [create_pr, hc, hf, hlu, hln, hdl, outcomeIsSuccess, effectsOf,
              effectIsCreatePull, effectIsMergePull, effectIsDeleteRef]
          | some resp =>
            cases hpr : env.logoProbe (pj.Id ++ "/" ++ ln) with
            | none =>
              simp [create_pr, hc, hf, hlu, hln, hdl, hpr, commit_and_pr, h,
                outcomeIsSuccess, effectsOf, effectIsCreatePull, effectIsMergePull,
                effectIsDeleteRef]
            | some sha =>
              simp [create_pr, hc, hf, hlu, hln, hdl, hpr, commit_and_pr, h,
                outcomeIsSuccess, effectsOf, effectIsCreatePull, effectIsMergePull,
                effectIsDeleteRef]

/-- An environment whose logo and manifest fetches succeed but whose
registry revision token is stale, so the plugin.json write is rejected. -/
def envStale : Env :=
  { repo_name := "kitUIN/ShadowPluginWarden", timestamp := "1700000002",
    http := fun u =>
      if u = "https://example.com/plugin.json" then some respManifest
      else if u = "https://example.com/a.png" then some respLogo
      else none,
    registry := [entryX], registry_sha := "regsha",
    logoProbe := fun _ => none, registryUpdateOk := false }

/-- C6 witness: the stale-token abort evaluated on a full release that
reaches the manifest-commit step. -/
theorem stale_registry_write_aborts_witness :
    outcomeIsSuccess (create_pr envStale [manifestAssetW, imageAssetA, plainAssetW]) =
      false ∧
    (effectsOf (create_pr envStale [manifestAssetW, imageAssetA, plainAssetW])).all
      (fun e => !(effectIsCreatePull e || effectIsMergePull e || effectIsDeleteRef e)) =
      true :=
  stale_registry_write_aborts envStale [manifestAssetW, imageAssetA, plainAssetW] rfl

/-- C9 amended: a network exception while downloading the logo bytes is
fatal and aborts the run right after branch creation, before any file is
written: the error trace is exactly the branch-creation write. -/
theorem logo_download_exception_aborts (env : Env) (assets : List RawAsset)
    (url lurl lname : String) (pj : PluginEntry)
    (hpj : (classify_release_assets assets).plugin_json_url = some url)
    (hfetch : get_pr_file env url (classify_release_assets assets).new_assets = some pj)
    (hlu : (classify_release_assets assets).logo_url = some lurl)
    (hln : (classify_release_assets assets).logo_name = some lname)
    (hdl : env.http lurl = none) :
    create_pr env assets = Outcome.error [Effect.createRef env.timestamp] := by
  simp [create_pr, hpj, hfetch, hlu, hln, hdl]

/-- An environment in which the logo download raises a network
exception while the manifest fetch succeeds. -/
def envNetFail : Env :=
  { repo_name := "kitUIN/ShadowPluginWarden", timestamp := "1700000003",
    http := fun u =>
      if u = "https://example.com/plugin.json" then some respManifest else none,
    registry := [entryX], registry_sha := "regsha",
    logoProbe := fun _ => none, registryUpdateOk := true }

/-- C9 amended witness: the network-exception abort evaluated on a
release with a logo asset. -/
theorem logo_download_exception_aborts_witness :
    create_pr envNetFail [manifestAssetW, imageAssetA, plainAssetW] =
      Outcome.error [Effect.createRef "1700000003"] :=
  logo_download_exception_aborts envNetFail [manifestAssetW, imageAssetA, plainAssetW]
    "https://example.com/plugin.json" "https://example.com/a.png" "a.png"
    { entryX2 with Assets := [reduceAsset plainAssetW] }
    (by decide) (by decide) (by decide) (by decide) rfl

/-- An environment in which the logo download returns HTTP 404 with an
error body, everything else succeeding. -/
def env404 : Env :=
  { repo_name := "kitUIN/ShadowPluginWarden", timestamp := "1700000004",
    http := fun u =>
      if u = "https://example.com/plugin.json" then some respManifest
      else if u = "https://example.com/a.png" then some respNotFound
      else none,
    registry := [entryX], registry_sha := "regsha",
    logoProbe := fun _ => none, registryUpdateOk := true }

/-- C9 counterexample: a 404 logo download response is not detected: the
run continues, writes the 404 error body as the logo file on the work
branch, and ends in full success, instead of aborting before the logo
write as the claim states. -/
theorem logo_download_status_not_checked :
    create_pr env404 [manifestAssetW, imageAssetA, plainAssetW] =
      Outcome.success
        [Effect.createRef "1700000004",
          Effect.createFile "x/a.png" "Create Plugin Logo: x v2"
            (FileContent.bytes "Not Found") "1700000004",
          Effect.updateFile "plugin.json" "Update Plugin: x v2"
            (FileContent.registryJson
              [{ Id := "x", Version := "2",
                 Logo := some
                   "https://raw.githubusercontent.com/kitUIN/ShadowPluginWarden/refs/heads/main/x/a.png",
                 Assets := [reduceAsset plainAssetW], payload := "p" }])
            "regsha" "1700000004",
          Effect.createPull "Update Plugin: x v2" "..." "1700000004" "main",
          Effect.mergePull,
          Effect.deleteRef "1700000004"] ∧
    outcomeIsSuccess (create_pr env404 [manifestAssetW, imageAssetA, plainAssetW]) =
      true ∧
    respNotFound.status = 404 := by
  refine ⟨by decide, by decide, rfl⟩

/-- An environment in which a file already exists at the logo path
x/a.png on the default branch (probe returns its revision token) and all
fetches and writes succeed. -/
def envLogoExists : Env :=
  { repo_name := "kitUIN/ShadowPluginWarden", timestamp := "1700000005",
    http := fun u =>
      if u = "https://example.com/plugin.json" then some respManifest
      else if u = "https://example.com/a.png" then some respLogo
      else none,
    registry := [entryX], registry_sha := "regsha",
    logoProbe := fun p => if p = "x/a.png" then some "oldsha" else none,
    registryUpdateOk := true }

/-- C5, at the failing input: with a file already present at the logo
path, the workflow does perform an update carrying the existing file's
revision token oldsha, but the logo commit message still carries the
verb Create, because the code builds the message from logo_flag before
the existence probe runs, while logo_flag is still False.  The claim's
Update verb is what the conditional in the source visibly intends and
never produces. -/
theorem logo_update_message_bug :
    create_pr envLogoExists [manifestAssetW, imageAssetA, plainAssetW] =
      Outcome.success
        [Effect.createRef "1700000005",
          Effect.updateFile "x/a.png" "Create Plugin Logo: x v2"
            (FileContent.bytes "LOGOBYTES") "oldsha" "1700000005",
          Effect.updateFile "plugin.json" "Update Plugin: x v2"
            (FileContent.registryJson
              [{ Id := "x", Version := "2",
                 Logo := some
                   "https://raw.githubusercontent.com/kitUIN/ShadowPluginWarden/refs/heads/main/x/a.png",
                 Assets := [reduceAsset plainAssetW], payload := "p" }])
            "regsha" "1700000005",
          Effect.createPull "Update Plugin: x v2" "..." "1700000005" "main",
          Effect.mergePull,
          Effect.deleteRef "1700000005"] ∧
    strStartsWith "Create Plugin Logo: x v2" "Update" = false := by
  refine ⟨by decide, by decide⟩
